import Mathlib

/-!
Verification of the daylight-segment geometry and the DST predicate of the
day_length_calculator repository (length_of_day_plot.py,
length_of_day_app_qt.py, dst_calc.py).

Angle representation: every angle produced by the source is a rational
multiple of pi, so angles are embedded exactly as rationals measured in
units of pi radians.  A value q here denotes q * pi radians; the float
`2 * np.pi` of the source is the constant `fullCircle = 2`, midnight is 0,
noon is 1 (= pi), and the tolerance statements of the specification become
exact equalities because all the arithmetic of the source (sums,
differences, Python `%`) is exact on these rationals.
-/

namespace DayLength

/-- Python modulo on rationals with the Python sign convention for a
positive modulus: `x % y = x - y * floor (x / y)`. -/
def qmod (x y : ℚ) : ℚ := x - y * (⌊x / y⌋ : ℚ)

/-- Model of a Python `datetime.time` value: hour, minute, second,
microsecond. -/
structure PyTime where
  hour : ℕ
  minute : ℕ
  second : ℕ
  microsecond : ℕ
  deriving DecidableEq

/-- Full circle, the source expression `2 * np.pi`: the rational 2 in units
of pi radians. -/
def fullCircle : ℚ := 2

/-- Source `time_to_angle` (length_of_day_plot.py line 22,
length_of_day_app_qt.py line 57): `(time.hour + time.minute / 60) / 24 * 2 * np.pi`.
Only the hour and minute fields of the time are read. -/
def time_to_angle (t : PyTime) : ℚ :=
  ((t.hour : ℚ) + (t.minute : ℚ) / 60) / 24 * fullCircle

/-- Clockwise arc width from boundary angle a to boundary angle b: the
expression `(b - a) % (2 * np.pi)` used for every width in the source. -/
def wrapWidth (a b : ℚ) : ℚ := qmod (b - a) fullCircle

/-- Semantic band classification of an arc segment, fixed by the fill color
of the corresponding `ax.bar` call of the source. -/
inductive Band where
  | night
  | morningTwilight
  | eveningTwilight
  | daylight
  | civilTwilight
  | nauticalTwilight
  | astroTwilight
  deriving DecidableEq

/-- One filled arc of the polar plot: start angle, clockwise angular width,
band classification. -/
structure Segment where
  start : ℚ
  width : ℚ
  band : Band
  deriving DecidableEq

/-- Arc segments emitted by `_create_plot` (length_of_day_plot.py lines
66-78) from the four boundary angles, listed in the emission order of the
`ax.bar` calls: night, morning twilight, evening twilight, daylight.  Each
width is the source expression `(B - A) % full_circle` for its boundary
pair. -/
def buildSingle (lastLight firstLight sunriseA sunsetA : ℚ) : List Segment :=
  [ ⟨lastLight, qmod (firstLight - lastLight) fullCircle, Band.night⟩,
    ⟨firstLight, qmod (sunriseA - firstLight) fullCircle, Band.morningTwilight⟩,
    ⟨sunsetA, qmod (lastLight - sunsetA) fullCircle, Band.eveningTwilight⟩,
    ⟨sunriseA, qmod (sunsetA - sunriseA) fullCircle, Band.daylight⟩ ]

/-- Event labels consumed by the single-band builder, in the first-access
order of `_create_plot` lines 67-77. -/
inductive Label where
  | first_light
  | last_light
  | sunrise
  | sunset
  deriving DecidableEq

/-- Error raised when a required named event is absent from the input
mapping, modelling the Python KeyError at `angles[label]`, which names the
missing label. -/
structure MissingEventError where
  label : Label
  deriving DecidableEq

/-- Look up one event of the mapping and convert it to an angle; an absent
label raises the error naming it. -/
def lookupEvent (events : Label → Option PyTime) (l : Label) :
    Except MissingEventError ℚ :=
  match events l with
  | some t => Except.ok (time_to_angle t)
  | none => Except.error ⟨l⟩

/-- Single-band segment builder of `_create_plot`: converts the event
mapping to angles and emits the four arc segments; the first absent label
in access order aborts the computation with a MissingEventError. -/
def build_segments (events : Label → Option PyTime) :
    Except MissingEventError (List Segment) := do
  let fl ← lookupEvent events Label.first_light
  let ll ← lookupEvent events Label.last_light
  let sr ← lookupEvent events Label.sunrise
  let ss ← lookupEvent events Label.sunset
  return buildSingle ll fl sr ss

/-- Arc segments emitted by `DayLengthCalculator.update_plot`
(length_of_day_app_qt.py lines 487-511), in emission order of the `ax.bar`
calls: daylight, civil am, civil pm, nautical am, nautical pm,
astronomical am, astronomical pm, night. -/
def buildMulti (sunriseA sunsetA civilDawn civilDusk nautDawn nautDusk
    astroDawn astroDusk : ℚ) : List Segment :=
  [ ⟨sunriseA, qmod (sunsetA - sunriseA) fullCircle, Band.daylight⟩,
    ⟨civilDawn, qmod (sunriseA - civilDawn) fullCircle, Band.civilTwilight⟩,
    ⟨sunsetA, qmod (civilDusk - sunsetA) fullCircle, Band.civilTwilight⟩,
    ⟨nautDawn, qmod (civilDawn - nautDawn) fullCircle, Band.nauticalTwilight⟩,
    ⟨civilDusk, qmod (nautDusk - civilDusk) fullCircle, Band.nauticalTwilight⟩,
    ⟨astroDawn, qmod (nautDawn - astroDawn) fullCircle, Band.astroTwilight⟩,
    ⟨nautDusk, qmod (astroDusk - nautDusk) fullCircle, Band.astroTwilight⟩,
    ⟨astroDusk, qmod (astroDawn - astroDusk) fullCircle, Band.night⟩ ]

/-- Sum of the angular widths of a list of segments. -/
def sumWidths (segs : List Segment) : ℚ := (segs.map Segment.width).sum

/-- Python modulo by the full circle never leaves `[0, 2*pi)`: lower
bound. -/
lemma qmod_two_nonneg (x : ℚ) : 0 ≤ qmod x 2 := by
  have h := Int.fract_nonneg (x / 2)
  rw [Int.fract] at h
  rw [qmod]
  linarith

/-- Python modulo by the full circle never leaves `[0, 2*pi)`: upper
bound. -/
lemma qmod_two_lt (x : ℚ) : qmod x 2 < 2 := by
  have h := Int.fract_lt_one (x / 2)
  rw [Int.fract] at h
  rw [qmod]
  linarith

/-- On `[0, 2*pi)` the modulo is the identity. -/
lemma qmod_two_eq_self {x : ℚ} (h0 : 0 ≤ x) (h2 : x < 2) : qmod x 2 = x := by
  have hf : ⌊x / 2⌋ = 0 := by
    rw [Int.floor_eq_zero_iff]
    constructor
    · positivity
    · linarith
  simp [qmod, hf]

/-- On `(-2*pi, 0)` the modulo wraps by one full turn. -/
lemma qmod_two_neg {x : ℚ} (h0 : -2 < x) (h2 : x < 0) : qmod x 2 = x + 2 := by
  have hf : ⌊x / 2⌋ = -1 := by
    rw [Int.floor_eq_iff]
    constructor <;> push_cast <;> linarith
  rw [qmod, hf]
  push_cast
  ring

/-- Modulo of zero is zero. -/
lemma qmod_two_zero : qmod 0 2 = 0 := qmod_two_eq_self le_rfl (by norm_num)

/-- C2: for every pair of boundary angles the clockwise arc width is
`(B - A) mod 2*pi`, which always lies in `[0, 2*pi)`, with
`(A - A) mod 2*pi = 0`; and both builders compute every emitted width by
exactly this rule, never a plain subtraction. -/
theorem wraparound_rule :
    (∀ a b : ℚ, 0 ≤ wrapWidth a b ∧ wrapWidth a b < fullCircle) ∧
    (∀ a : ℚ, wrapWidth a a = 0) ∧
    (∀ ll fl sr ss : ℚ, (buildSingle ll fl sr ss).map Segment.width =
      [wrapWidth ll fl, wrapWidth fl sr, wrapWidth ss ll, wrapWidth sr ss]) ∧
    (∀ sr ss cd ck nd nk ad ak : ℚ,
      (buildMulti sr ss cd ck nd nk ad ak).map Segment.width =
        [wrapWidth sr ss, wrapWidth cd sr, wrapWidth ss ck, wrapWidth nd cd,
         wrapWidth ck nk, wrapWidth ad nd, wrapWidth nk ak, wrapWidth ak ad]) := by
  refine ⟨fun a b => ⟨qmod_two_nonneg _, qmod_two_lt _⟩, fun a => ?_,
    fun _ _ _ _ => rfl, fun _ _ _ _ _ _ _ _ => rfl⟩
  simpa [wrapWidth, fullCircle] using qmod_two_zero

/-- C3: `time_to_angle` returns `(hour + minute/60) / 24 * 2*pi`, a value in
`[0, 2*pi)` for every valid time, monotonically non-decreasing in the
lexicographic order on (hour, minute), with midnight mapped to 0 and noon
mapped to pi (= `fullCircle / 2`). -/
theorem time_to_angle_spec :
    (∀ t : PyTime,
      time_to_angle t = ((t.hour : ℚ) + (t.minute : ℚ) / 60) / 24 * fullCircle) ∧
    (∀ t : PyTime, t.hour < 24 → t.minute < 60 →
      0 ≤ time_to_angle t ∧ time_to_angle t < fullCircle) ∧
    (∀ t u : PyTime, t.hour < 24 → t.minute < 60 → u.hour < 24 → u.minute < 60 →
      (t.hour < u.hour ∨ (t.hour = u.hour ∧ t.minute ≤ u.minute)) →
      time_to_angle t ≤ time_to_angle u) ∧
    time_to_angle ⟨0, 0, 0, 0⟩ = 0 ∧
    time_to_angle ⟨12, 0, 0, 0⟩ = fullCircle / 2 := by
  refine ⟨fun t => rfl, ?_, ?_, by norm_num [time_to_angle, fullCircle],
    by norm_num [time_to_angle, fullCircle]⟩
  · intro t h1 h2
    have hh : (t.hour : ℚ) ≤ 23 := by exact_mod_cast Nat.lt_succ_iff.mp h1
    have hm : (t.minute : ℚ) < 60 := by exact_mod_cast h2
    have hm60 : (t.minute : ℚ) / 60 < 1 := by
      rw [div_lt_one (by norm_num)]
      exact hm
    constructor
    · rw [time_to_angle, fullCircle]
      positivity
    · rw [time_to_angle, fullCircle]
      have hh0 : (0 : ℚ) ≤ (t.hour : ℚ) := Nat.cast_nonneg _
      linarith
  · intro t u ht1 ht2 hu1 hu2 hlex
    have key : (t.hour : ℚ) + (t.minute : ℚ) / 60 ≤ (u.hour : ℚ) + (u.minute : ℚ) / 60 := by
      rcases hlex with h | ⟨he, hle⟩
      · have h1 : (t.hour : ℚ) + 1 ≤ (u.hour : ℚ) := by exact_mod_cast h
        have h2 : (t.minute : ℚ) / 60 < 1 := by
          rw [div_lt_one (by norm_num)]
          exact_mod_cast ht2
        have h3 : (0 : ℚ) ≤ (u.minute : ℚ) / 60 := by positivity
        linarith
      · have h1 : (t.hour : ℚ) = (u.hour : ℚ) := by exact_mod_cast he
        have h2 : (t.minute : ℚ) ≤ (u.minute : ℚ) := by exact_mod_cast hle
        have h3 : (t.minute : ℚ) / 60 ≤ (u.minute : ℚ) / 60 := by linarith
        linarith
    rw [time_to_angle, time_to_angle, fullCircle]
    linarith

/-- C3 witness: the bounds and the monotonicity instantiated at midnight. -/
theorem time_to_angle_spec_witness :
    (0 ≤ time_to_angle ⟨0, 0, 0, 0⟩ ∧ time_to_angle ⟨0, 0, 0, 0⟩ < fullCircle) ∧
    time_to_angle ⟨0, 0, 0, 0⟩ ≤ time_to_angle ⟨12, 0, 0, 0⟩ :=
  ⟨time_to_angle_spec.2.1 ⟨0, 0, 0, 0⟩ (by decide) (by decide),
   time_to_angle_spec.2.2.1 ⟨0, 0, 0, 0⟩ ⟨12, 0, 0, 0⟩ (by decide) (by decide)
     (by decide) (by decide) (Or.inl (by decide))⟩

/-- C1 (amended): tiling.  When the boundary angles are in the cyclic band
order (single band: first_light before sunrise before sunset before
last_light on the clock face, the night band wrapping through midnight;
multi band: dawns nested outward and dusks nested inward around daylight),
the emitted widths — 4 in the single-band case and 8 in the multi-band case
(daylight + 2 civil + 2 nautical + 2 astronomical + night) — sum to exactly
`2*pi`; the rational arithmetic is exact, so the 1e-9 tolerance is met with
equality. -/
theorem tiling_sum :
    (∀ fl ll sr ss : ℚ, 0 ≤ fl → fl ≤ sr → sr ≤ ss → ss ≤ ll →
      ll < fullCircle → fl < ll →
      sumWidths (buildSingle ll fl sr ss) = fullCircle) ∧
    (∀ ad nd cd sr ss ck nk ak : ℚ, 0 ≤ ad → ad ≤ nd → nd ≤ cd → cd ≤ sr →
      sr ≤ ss → ss ≤ ck → ck ≤ nk → nk ≤ ak → ak < fullCircle → ad < ak →
      sumWidths (buildMulti sr ss cd ck nd nk ad ak) = fullCircle) := by
  constructor
  · intro fl ll sr ss h0 h1 h2 h3 h4 h5
    have e1 : qmod (fl - ll) 2 = fl - ll + 2 :=
      qmod_two_neg (by rw [fullCircle] at h4; linarith) (by linarith)
    have e2 : qmod (sr - fl) 2 = sr - fl :=
      qmod_two_eq_self (by linarith) (by rw [fullCircle] at h4; linarith)
    have e3 : qmod (ll - ss) 2 = ll - ss :=
      qmod_two_eq_self (by linarith) (by rw [fullCircle] at h4; linarith)
    have e4 : qmod (ss - sr) 2 = ss - sr :=
      qmod_two_eq_self (by linarith) (by rw [fullCircle] at h4; linarith)
    simp only [sumWidths, buildSingle, fullCircle, List.map_cons, List.map_nil,
      List.sum_cons, List.sum_nil, e1, e2, e3, e4]
    ring
  · intro ad nd cd sr ss ck nk ak g1 g2 g3 g4 g5 g6 g7 g8 g9 g10
    rw [fullCircle] at g9
    have e1 : qmod (ss - sr) 2 = ss - sr :=
      qmod_two_eq_self (by linarith) (by linarith)
    have e2 : qmod (sr - cd) 2 = sr - cd :=
      qmod_two_eq_self (by linarith) (by linarith)
    have e3 : qmod (ck - ss) 2 = ck - ss :=
      qmod_two_eq_self (by linarith) (by linarith)
    have e4 : qmod (cd - nd) 2 = cd - nd :=
      qmod_two_eq_self (by linarith) (by linarith)
    have e5 : qmod (nk - ck) 2 = nk - ck :=
      qmod_two_eq_self (by linarith) (by linarith)
    have e6 : qmod (nd - ad) 2 = nd - ad :=
      qmod_two_eq_self (by linarith) (by linarith)
    have e7 : qmod (ak - nk) 2 = ak - nk :=
      qmod_two_eq_self (by linarith) (by linarith)
    have e8 : qmod (ad - ak) 2 = ad - ak + 2 :=
      qmod_two_neg (by linarith) (by linarith)
    simp only [sumWidths, buildMulti, fullCircle, List.map_cons, List.map_nil,
      List.sum_cons, List.sum_nil, e1, e2, e3, e4, e5, e6, e7, e8]
    ring

/-- C1 witness: both tiling statements instantiated at concrete in-order
boundary angles. -/
theorem tiling_sum_witness :
    sumWidths (buildSingle 1 0 0 0) = fullCircle ∧
    sumWidths (buildMulti 0 0 0 1 0 1 0 1) = fullCircle :=
  ⟨tiling_sum.1 0 1 0 0 le_rfl le_rfl le_rfl zero_le_one one_lt_two zero_lt_one,
   tiling_sum.2 0 0 0 0 0 1 1 1 le_rfl le_rfl le_rfl le_rfl le_rfl zero_le_one
     le_rfl le_rfl one_lt_two zero_lt_one⟩

/-- Complete single-band event set whose angles all lie in `[0, 2*pi)` but
are not in the cyclic band order: first_light 21:00, last_light 05:00,
sunrise 06:00, sunset 20:00. -/
def outOfOrderEvents : Label → Option PyTime
  | Label.first_light => some ⟨21, 0, 0, 0⟩
  | Label.last_light => some ⟨5, 0, 0, 0⟩
  | Label.sunrise => some ⟨6, 0, 0, 0⟩
  | Label.sunset => some ⟨20, 0, 0, 0⟩

/-- C1 counterexample: on a complete event set whose angles lie in
`[0, 2*pi)` the emitted widths need not sum to `2*pi`: with first_light
21:00, last_light 05:00, sunrise 06:00, sunset 20:00 the four widths sum to
`4*pi` (the rational `2 * fullCircle`), off by a full turn, far beyond the
1e-9 tolerance. -/
theorem tiling_sum_counterexample :
    Except.map sumWidths (build_segments outOfOrderEvents) =
      Except.ok (2 * fullCircle) ∧ (2 * fullCircle : ℚ) ≠ fullCircle := by
  constructor
  · have a1 : time_to_angle ⟨21, 0, 0, 0⟩ = 7/4 := by
      norm_num [time_to_angle, fullCircle]
    have a2 : time_to_angle ⟨5, 0, 0, 0⟩ = 5/12 := by
      norm_num [time_to_angle, fullCircle]
    have a3 : time_to_angle ⟨6, 0, 0, 0⟩ = 1/2 := by
      norm_num [time_to_angle, fullCircle]
    have a4 : time_to_angle ⟨20, 0, 0, 0⟩ = 5/3 := by
      norm_num [time_to_angle, fullCircle]
    have w1 : qmod (4/3) 2 = 4/3 := by norm_num [qmod]
    have w2 : qmod (-(5/4)) 2 = 3/4 := by norm_num [qmod]
    have w4 : qmod (7/6) 2 = 7/6 := by norm_num [qmod]
    simp only [build_segments, lookupEvent, outOfOrderEvents, a1, a2, a3, a4,
      bind, Except.bind, pure, Except.pure, Except.map, buildSingle, sumWidths,
      fullCircle, List.map_cons, List.map_nil, List.sum_cons, List.sum_nil]
    norm_num [w1, w2, w4]
  · rw [fullCircle]
    norm_num

/-- C4 (amended): for every complete single-band event set the builder
emits exactly four segments, in the fixed deterministic order night,
morning twilight, evening twilight, daylight — the two `ax.bar` calls for
the twilight arcs both precede the daylight one. -/
theorem emission_order (ll fl sr ss : ℚ) :
    (buildSingle ll fl sr ss).map Segment.band =
      [Band.night, Band.morningTwilight, Band.eveningTwilight, Band.daylight] :=
  rfl

/-- C4 counterexample: at a concrete input the emitted band order is night,
morning twilight, evening twilight, daylight, which differs from the
claimed order night, morning twilight, daylight, evening twilight. -/
theorem emission_order_counterexample :
    (buildSingle 0 0 0 0).map Segment.band =
      [Band.night, Band.morningTwilight, Band.eveningTwilight, Band.daylight] ∧
    (buildSingle 0 0 0 0).map Segment.band ≠
      [Band.night, Band.morningTwilight, Band.daylight, Band.eveningTwilight] :=
  ⟨rfl, by decide⟩

/-- Event mapping of the degenerate scenario: sunrise and sunset both at
00:00, first_light and last_light free. -/
def degenerateEvents (fl ll : PyTime) : Label → Option PyTime
  | Label.first_light => some fl
  | Label.last_light => some ll
  | Label.sunrise => some ⟨0, 0, 0, 0⟩
  | Label.sunset => some ⟨0, 0, 0, 0⟩

/-- C6 (amended): with sunrise = sunset = 00:00 the builder raises no error
and the daylight width is 0; the night width is
`(first_light - last_light) mod 2*pi`, which is 0 — not `2*pi` — when
first_light and last_light are also 00:00, since a mod-`2*pi` width always
lies in `[0, 2*pi)`. -/
theorem degenerate_midnight :
    (∀ fl ll : PyTime, build_segments (degenerateEvents fl ll) =
      Except.ok
        [⟨time_to_angle ll, wrapWidth (time_to_angle ll) (time_to_angle fl),
          Band.night⟩,
         ⟨time_to_angle fl, wrapWidth (time_to_angle fl) 0,
          Band.morningTwilight⟩,
         ⟨0, wrapWidth 0 (time_to_angle ll), Band.eveningTwilight⟩,
         ⟨0, 0, Band.daylight⟩]) ∧
    wrapWidth (time_to_angle ⟨0, 0, 0, 0⟩) (time_to_angle ⟨0, 0, 0, 0⟩) = 0 := by
  have hmid : time_to_angle ⟨0, 0, 0, 0⟩ = 0 := by
    norm_num [time_to_angle, fullCircle]
  constructor
  · intro fl ll
    simp only [build_segments, lookupEvent, degenerateEvents, hmid, bind,
      Except.bind, pure, Except.pure, buildSingle, wrapWidth, fullCircle]
    simp [qmod_two_zero]
  · rw [hmid, wrapWidth, fullCircle]
    simpa using qmod_two_zero

/-- C6 counterexample: with all four events at 00:00 the builder succeeds,
but every emitted width — the night width included — is 0, not `2*pi`. -/
theorem degenerate_midnight_counterexample :
    Except.map (fun segs => segs.map Segment.width)
        (build_segments (degenerateEvents ⟨0, 0, 0, 0⟩ ⟨0, 0, 0, 0⟩)) =
      Except.ok [0, 0, 0, 0] ∧ (0 : ℚ) ≠ fullCircle := by
  have hmid : time_to_angle ⟨0, 0, 0, 0⟩ = 0 := by
    norm_num [time_to_angle, fullCircle]
  constructor
  · simp only [build_segments, lookupEvent, degenerateEvents, hmid, bind,
      Except.bind, pure, Except.pure, Except.map, buildSingle, fullCircle,
      List.map_cons, List.map_nil]
    simp [qmod_two_zero]
  · rw [fullCircle]
    norm_num

/-- Proleptic Gregorian leap-year rule, as in the Python datetime module. -/
def isLeap (y : ℕ) : Bool := (y % 4 == 0 && y % 100 != 0) || y % 400 == 0

/-- Days in a month of the proleptic Gregorian calendar. -/
def daysInMonth (y m : ℕ) : ℕ :=
  if m = 2 then (if isLeap y then 29 else 28)
  else if m = 4 ∨ m = 6 ∨ m = 9 ∨ m = 11 then 30
  else 31

/-- Days in the months of year y strictly before month m. -/
def daysBeforeMonth (y m : ℕ) : ℕ :=
  ((List.range (m - 1)).map (fun i => daysInMonth y (i + 1))).sum

/-- Python `datetime.toordinal()`: day number of the proleptic Gregorian
calendar, with 0001-01-01 as day 1; `datetime` comparison at midnight is
ordinal comparison. -/
def toOrdinal (y m d : ℕ) : ℕ :=
  365 * (y - 1) + (y - 1) / 4 - (y - 1) / 100 + (y - 1) / 400
    + daysBeforeMonth y m + d

/-- Python `datetime.weekday()`: Monday = 0 .. Sunday = 6; ordinal 1
(0001-01-01) is a Monday. -/
def weekday (ordinal : ℕ) : ℕ := (ordinal + 6) % 7

/-- Source `_first_sunday` (dst_calc.py lines 36-42) as an ordinal: the
first of the month advanced by `(6 - weekday) % 7` days. -/
def first_sunday (year month : ℕ) : ℕ :=
  toOrdinal year month 1 + (6 - weekday (toOrdinal year month 1)) % 7

/-- Source `_second_sunday` (dst_calc.py lines 27-34) as an ordinal: the
first Sunday of the month plus one week. -/
def second_sunday (year month : ℕ) : ℕ :=
  toOrdinal year month 1 + (6 - weekday (toOrdinal year month 1)) % 7 + 7

/-- Source `dst_in_effect` (dst_calc.py lines 17-25): true when the date is
on or after the second Sunday of March and strictly before the first Sunday
of November of its year. -/
def dst_in_effect (year month day : ℕ) : Bool :=
  decide (second_sunday year 3 ≤ toOrdinal year month day)
    && decide (toOrdinal year month day < first_sunday year 11)

/-- C7: the DST predicate holds exactly on or after the second Sunday of
March and strictly before the first Sunday of November; both boundary days
really are Sundays in 2025 (March 9 and November 2), and the four concrete
values of the specification hold: July 1 2025 true, January 1 2025 false,
March 9 2025 true (start inclusive), November 2 2025 false (end
exclusive). -/
theorem dst_in_effect_spec :
    (∀ y m d : ℕ, dst_in_effect y m d = true ↔
      (second_sunday y 3 ≤ toOrdinal y m d ∧
        toOrdinal y m d < first_sunday y 11)) ∧
    second_sunday 2025 3 = toOrdinal 2025 3 9 ∧
    first_sunday 2025 11 = toOrdinal 2025 11 2 ∧
    weekday (second_sunday 2025 3) = 6 ∧
    weekday (first_sunday 2025 11) = 6 ∧
    dst_in_effect 2025 7 1 = true ∧
    dst_in_effect 2025 1 1 = false ∧
    dst_in_effect 2025 3 9 = true ∧
    dst_in_effect 2025 11 2 = false := by
  refine ⟨fun y m d => ?_, by decide, by decide, by decide, by decide,
    by decide, by decide, by decide, by decide⟩
  simp [dst_in_effect]

/-- C8: the segment-building computation is pure and deterministic:
identical runs give identical output, and the output depends only on the
values of the input mapping, with no hidden state. -/
theorem build_segments_deterministic :
    (∀ events : Label → Option PyTime,
      build_segments events = build_segments events) ∧
    (∀ e1 e2 : Label → Option PyTime, (∀ l, e1 l = e2 l) →
      build_segments e1 = build_segments e2) ∧
    (∀ sr ss cd ck nd nk ad ak : ℚ,
      buildMulti sr ss cd ck nd nk ad ak = buildMulti sr ss cd ck nd nk ad ak) := by
  refine ⟨fun _ => rfl, ?_, fun _ _ _ _ _ _ _ _ => rfl⟩
  intro e1 e2 h
  rw [funext h]

/-- C8 witness: extensionality instantiated at the empty mapping. -/
theorem build_segments_deterministic_witness :
    build_segments (fun _ => none) = build_segments (fun _ => none) :=
  build_segments_deterministic.2.1 (fun _ => none) (fun _ => none)
    (fun _ => rfl)

/-- C9: `time_to_angle` reads only the hour and minute fields: two times
equal in hour and minute but differing in second or microsecond map to the
same angle. -/
theorem time_to_angle_ignores_subminute (t u : PyTime)
    (hh : t.hour = u.hour) (hm : t.minute = u.minute) :
    time_to_angle t = time_to_angle u := by
  rw [time_to_angle, time_to_angle, hh, hm]

/-- C9 witness: two times at 07:30 with different second and microsecond
fields map to the same angle. -/
theorem time_to_angle_ignores_subminute_witness :
    time_to_angle ⟨7, 30, 15, 250000⟩ = time_to_angle ⟨7, 30, 59, 999999⟩ :=
  time_to_angle_ignores_subminute ⟨7, 30, 15, 250000⟩ ⟨7, 30, 59, 999999⟩
    rfl rfl

/-- Solar events returned by one successful call of the astral `sun`
oracle. -/
structure SunInfo where
  sunrise : PyTime
  sunset : PyTime
  noon : PyTime
  dawn : PyTime
  dusk : PyTime
  deriving DecidableEq

/-- Source `get_sun_info` (length_of_day_app_qt.py lines 392-413): on
oracle success the result is stored in `self.sun_info`; on any oracle
exception the method catches it and returns with the previous
`self.sun_info` untouched. -/
def get_sun_info (oracle : ℚ → Except Unit SunInfo) (depression : ℚ)
    (sunInfo : Option SunInfo) : Option SunInfo :=
  match oracle depression with
  | Except.ok r => some r
  | Except.error _ => sunInfo

/-- Reading `self.sun_info`: raises (the AttributeError of Python) when the
attribute was never assigned. -/
def readInfo (s : Option SunInfo) : Except Unit SunInfo :=
  match s with
  | some i => Except.ok i
  | none => Except.error ()

/-- Data produced by one `update_plot` pass: the depression-0 event times,
the dawn/dusk pair read for each twilight band, and the emitted segments. -/
structure PlotData where
  noonTime : PyTime
  sunriseTime : PyTime
  sunsetTime : PyTime
  civil : PyTime × PyTime
  nautical : PyTime × PyTime
  astro : PyTime × PyTime
  segments : List Segment
  deriving DecidableEq

/-- Source `update_plot` (length_of_day_app_qt.py lines 415-511): queries
the oracle at depression 0 for noon/sunrise/sunset, then at 6, 12, 18 for
the three twilight bands, reading `self.sun_info` after each call — so a
failed call reads whatever the previous successful call left — and emits
the eight arc segments. -/
def update_plot (oracle : ℚ → Except Unit SunInfo)
    (sunInfo : Option SunInfo) : Except Unit PlotData := do
  let s1 := get_sun_info oracle 0 sunInfo
  let i1 ← readInfo s1
  let s2 := get_sun_info oracle 6 s1
  let i2 ← readInfo s2
  let s3 := get_sun_info oracle 12 s2
  let i3 ← readInfo s3
  let s4 := get_sun_info oracle 18 s3
  let i4 ← readInfo s4
  return { noonTime := i1.noon, sunriseTime := i1.sunrise,
           sunsetTime := i1.sunset,
           civil := (i2.dawn, i2.dusk), nautical := (i3.dawn, i3.dusk),
           astro := (i4.dawn, i4.dusk),
           segments := buildMulti (time_to_angle i1.sunrise)
             (time_to_angle i1.sunset)
             (time_to_angle i2.dawn) (time_to_angle i2.dusk)
             (time_to_angle i3.dawn) (time_to_angle i3.dusk)
             (time_to_angle i4.dawn) (time_to_angle i4.dusk) }

/-- C10: when the oracle raises for the civil depression angle,
`get_sun_info` swallows the exception and leaves `self.sun_info` untouched,
so `update_plot` reads the dawn/dusk left over from the previous successful
call and still succeeds — the per-band failure never reaches the rendering
output; and when no successful call ever assigned `self.sun_info`, the pass
fails on the missing attribute instead. -/
theorem stale_sun_info :
    (∀ (oracle : ℚ → Except Unit SunInfo) (s : Option SunInfo) (i : SunInfo),
      oracle 6 = Except.error () → get_sun_info oracle 0 s = some i →
      ∃ out, update_plot oracle s = Except.ok out ∧
        out.civil = (i.dawn, i.dusk)) ∧
    (∀ oracle : ℚ → Except Unit SunInfo, oracle 0 = Except.error () →
      update_plot oracle none = Except.error ()) := by
  constructor
  · intro oracle s i h6 h0
    rw [update_plot, h0]
    have h2 : get_sun_info oracle 6 (some i) = some i := by
      rw [get_sun_info, h6]
    rw [h2]
    cases h12 : oracle 12 <;> cases h18 : oracle 18 <;>
      (simp only [get_sun_info, h12, h18]; exact ⟨_, rfl, rfl⟩)
  · intro oracle h0
    rw [update_plot, get_sun_info, h0]
    rfl

/-- C10 witness: a concrete always-failing oracle with a previously stored
sun_info yields the stale civil dawn/dusk and no error; with no stored
sun_info the pass fails. -/
theorem stale_sun_info_witness :
    (∃ out, update_plot (fun _ => Except.error ())
        (some ⟨⟨6, 0, 0, 0⟩, ⟨18, 0, 0, 0⟩, ⟨12, 0, 0, 0⟩, ⟨5, 30, 0, 0⟩,
          ⟨18, 30, 0, 0⟩⟩) = Except.ok out ∧
      out.civil = (⟨5, 30, 0, 0⟩, ⟨18, 30, 0, 0⟩)) ∧
    update_plot (fun _ => Except.error ()) none = Except.error () :=
  ⟨stale_sun_info.1 (fun _ => Except.error ())
      (some ⟨⟨6, 0, 0, 0⟩, ⟨18, 0, 0, 0⟩, ⟨12, 0, 0, 0⟩, ⟨5, 30, 0, 0⟩,
        ⟨18, 30, 0, 0⟩⟩)
      ⟨⟨6, 0, 0, 0⟩, ⟨18, 0, 0, 0⟩, ⟨12, 0, 0, 0⟩, ⟨5, 30, 0, 0⟩,
        ⟨18, 30, 0, 0⟩⟩ rfl rfl,
   stale_sun_info.2 (fun _ => Except.error ()) rfl⟩

/-- Previously stored oracle result used to exhibit the silent-swallow
behavior of the qt path: dawn 05:00, dusk 19:00. -/
def staleInfo : SunInfo :=
  ⟨⟨5, 45, 0, 0⟩, ⟨19, 15, 0, 0⟩, ⟨12, 30, 0, 0⟩, ⟨5, 0, 0, 0⟩,
   ⟨19, 0, 0, 0⟩⟩

/-- C5 (amended): the raise-naming-label behavior holds only of the
single-band builder of `_create_plot`: any absent required label makes it
fail with an error naming a missing label, and no partial or guessed
segment list is returned.  The qt `update_plot` path raises no such error:
when the oracle produces no value for a requested band, the failure is
silently swallowed and a full eight-segment list is still emitted from the
dawn/dusk left by the last successful call; only when no previous result
exists does the pass fail, and then with an error naming no label. -/
theorem missing_event :
    (∀ events : Label → Option PyTime, (∃ l, events l = none) →
      ∃ l, events l = none ∧ build_segments events = Except.error ⟨l⟩) ∧
    (∀ (oracle : ℚ → Except Unit SunInfo) (s : Option SunInfo) (i : SunInfo),
      oracle 6 = Except.error () → get_sun_info oracle 0 s = some i →
      ∃ out, update_plot oracle s = Except.ok out ∧
        out.segments.length = 8) ∧
    (∀ oracle : ℚ → Except Unit SunInfo, oracle 0 = Except.error () →
      update_plot oracle none = Except.error ()) := by
  refine ⟨?_, ?_, ?_⟩
  · intro events h
    rcases hfl : events Label.first_light with _ | tfl
    · exact ⟨Label.first_light, hfl, by
        simp [build_segments, lookupEvent, hfl, bind, Except.bind]⟩
    rcases hll : events Label.last_light with _ | tll
    · exact ⟨Label.last_light, hll, by
        simp [build_segments, lookupEvent, hfl, hll, bind, Except.bind]⟩
    rcases hsr : events Label.sunrise with _ | tsr
    · exact ⟨Label.sunrise, hsr, by
        simp [build_segments, lookupEvent, hfl, hll, hsr, bind, Except.bind]⟩
    rcases hss : events Label.sunset with _ | tss
    · exact ⟨Label.sunset, hss, by
        simp [build_segments, lookupEvent, hfl, hll, hsr, hss, bind,
          Except.bind]⟩
    obtain ⟨l, hl⟩ := h
    cases l <;> simp_all
  · intro oracle s i h6 h0
    rw [update_plot, h0]
    have h2 : get_sun_info oracle 6 (some i) = some i := by
      rw [get_sun_info, h6]
    rw [h2]
    cases h12 : oracle 12 <;> cases h18 : oracle 18 <;>
      (simp only [get_sun_info, h12, h18]; exact ⟨_, rfl, rfl⟩)
  · intro oracle h0
    rw [update_plot, get_sun_info, h0]
    rfl

/-- C5 witness: all three parts instantiated concretely — the empty mapping
makes the single-band builder fail naming a label; an always-failing oracle
with a stored previous result still yields a full eight-segment list; and
with nothing stored the qt pass fails with the unnamed error. -/
theorem missing_event_witness :
    (∃ l, (fun _ : Label => (none : Option PyTime)) l = none ∧
      build_segments (fun _ => none) = Except.error ⟨l⟩) ∧
    (∃ out, update_plot (fun _ => Except.error ()) (some staleInfo) =
      Except.ok out ∧ out.segments.length = 8) ∧
    update_plot (fun _ => Except.error ()) none = Except.error () :=
  ⟨missing_event.1 (fun _ => none) ⟨Label.sunrise, rfl⟩,
   missing_event.2.1 (fun _ => Except.error ()) (some staleInfo) staleInfo
     rfl rfl,
   missing_event.2.2 (fun _ => Except.error ()) rfl⟩

/-- C5 counterexample: on the cited qt path the claim fails concretely.
The oracle produces no value for any requested depression (every call
fails), yet with a previously stored result `update_plot` raises no error
naming a label: it silently swallows every per-band failure and returns a
full eight-segment list whose civil band is the leftover dawn/dusk — a
guessed plot, not a MissingEventError. -/
theorem missing_event_counterexample :
    ∃ out, update_plot (fun _ => Except.error ()) (some staleInfo) =
        Except.ok out ∧
      out.civil = (staleInfo.dawn, staleInfo.dusk) ∧
      out.segments.length = 8 :=
  ⟨_, rfl, rfl, rfl⟩

end DayLength
